import Mathlib

/-!
Verification of the drum-label-generator date, barcode and layout logic.

Shallow embedding of the label-generation code in `dod_label_app.py`
(Streamlit app, class `DoDLabelGenerator`) and
`dod_label_generator_png.py` (CLI generator, class `DoDLabelGeneratorPNG`).

Python strings are modelled as Lean `String`; slicing, `zfill`, `strip`,
`lower`, `upper` and `filter(str.isdigit, ...)` are modelled on the
character list (`String.toList`).  Missing / NaN spreadsheet cells are
modelled as `none : Option String`.
-/

namespace DrumLabel

/-! ## Python string primitives -/

/-- Python `s[:n]`. -/
def strTake (s : String) (n : Nat) : String :=
  String.mk (s.toList.take n)

/-- Python `s[-n:]` for `n > 0` (the last `n` characters, or all of `s`
when it is shorter than `n`). -/
def takeLast (s : String) (n : Nat) : String :=
  String.mk (s.toList.drop (s.toList.length - n))

/-- Python `s.zfill(w)` for strings without a sign character: left-pad
with `'0'` up to width `w`. -/
def zfill (w : Nat) (s : String) : String :=
  String.mk (List.replicate (w - s.toList.length) '0' ++ s.toList)

/-- Python `s.strip()`: remove leading and trailing whitespace. -/
def strTrim (s : String) : String :=
  String.mk (((s.toList.dropWhile Char.isWhitespace).reverse.dropWhile
    Char.isWhitespace).reverse)

/-- Python `s.lower()` (ASCII case folding suffices for the data here). -/
def lowerStr (s : String) : String :=
  String.mk (s.toList.map Char.toLower)

/-- Python `s.upper()` (ASCII case folding suffices for the data here). -/
def upperStr (s : String) : String :=
  String.mk (s.toList.map Char.toUpper)

/-- Python digit filtering: the join of filter(str.isdigit, s). -/
def extractDigits (s : String) : String :=
  String.mk (s.toList.filter Char.isDigit)

/-! ## Dates

Values of `datetime` are modelled by year/month/day triples; the
`datetime` constructor enforces `1 <= year <= 9999` and in-range
month/day. -/

structure Date where
  year : Int
  month : Nat
  day : Nat
deriving DecidableEq, Repr

/-- Gregorian leap-year test. -/
def isLeap (y : Int) : Bool :=
  y % 400 == 0 || (y % 4 == 0 && y % 100 != 0)

/-- Number of days in a month of a given year. -/
def daysInMonth (y : Int) (m : Nat) : Nat :=
  if m = 2 then (if isLeap y then 29 else 28)
  else if m = 4 ∨ m = 6 ∨ m = 9 ∨ m = 11 then 30
  else 31

/-- Adding a `dateutil.relativedelta` of n months to a date: exact
calendar month arithmetic, the day-of-month clamped to the target
month's last valid day. -/
def addMonths (d : Date) (n : Int) : Date :=
  let t : Int := (d.month : Int) - 1 + n
  let y : Int := d.year + t.fdiv 12
  let m : Nat := (t.emod 12).toNat + 1
  ⟨y, m, min d.day (daysInMonth y m)⟩

/-- Serial day number of a Gregorian date (standard civil-calendar
conversion over 400-year eras; the epoch offset is irrelevant because
only round trips through `dayToDate` are used). -/
def dateToDay (d : Date) : Int :=
  let y : Int := if d.month ≤ 2 then d.year - 1 else d.year
  let era : Int := y.fdiv 400
  let yoe : Nat := (y - era * 400).toNat
  let mp : Nat := (d.month + 9) % 12
  let doy : Nat := (153 * mp + 2) / 5 + d.day - 1
  let doe : Nat := yoe * 365 + yoe / 4 - yoe / 100 + doy
  era * 146097 + doe

/-- Gregorian date of a serial day number (inverse of `dateToDay`). -/
def dayToDate (z : Int) : Date :=
  let era : Int := z.fdiv 146097
  let doe : Nat := (z - era * 146097).toNat
  let yoe : Nat := (doe - doe / 1460 + doe / 36524 - doe / 146096) / 365
  let y : Int := (yoe : Int) + era * 400
  let doy : Nat := doe - (365 * yoe + yoe / 4 - yoe / 100)
  let mp : Nat := (5 * doy + 2) / 153
  let dd : Nat := doy - (153 * mp + 2) / 5 + 1
  let m : Nat := if mp < 10 then mp + 3 else mp - 9
  ⟨if m ≤ 2 then y + 1 else y, m, dd⟩

/-- Adding a `datetime.timedelta` of n days to a date. -/
def addDays (d : Date) (n : Int) : Date :=
  dayToDate (dateToDay d + n)

/-! ## strptime / strftime -/

/-- Split a character list at every occurrence of `c` (Python
`s.split('/')` semantics: always at least one piece). -/
def splitOnChar (c : Char) : List Char → List (List Char)
  | [] => [[]]
  | x :: xs =>
    let r := splitOnChar c xs
    if x = c then [] :: r
    else
      match r with
      | [] => [[x]]
      | h :: t => (x :: h) :: t

/-- Decimal value of a digit list. -/
def digitsVal (l : List Char) : Nat :=
  l.foldl (fun a c => a * 10 + (c.toNat - 48)) 0

/-- One numeric field of `strptime`: 1 to `maxLen` digits. -/
def parseField (l : List Char) (maxLen : Nat) : Option Nat :=
  if 1 ≤ l.length ∧ l.length ≤ maxLen ∧ l.all Char.isDigit then
    some (digitsVal l)
  else none

/-- Python `datetime.strptime(s, "%d/%m/%Y")`: day and month of 1-2 digits,
year of up to 4 digits, then the range checks the `datetime`
constructor performs. Returns `none` where Python raises. -/
def parseDMY (s : String) : Option Date :=
  match splitOnChar '/' s.toList with
  | [ds, ms, ys] =>
    match parseField ds 2, parseField ms 2, parseField ys 4 with
    | some d, some m, some y =>
      if 1 ≤ y ∧ y ≤ 9999 ∧ 1 ≤ m ∧ m ≤ 12 ∧ 1 ≤ d ∧
          d ≤ daysInMonth (y : Int) m then
        some ⟨(y : Int), m, d⟩
      else none
    | _, _, _ => none
  | _ => none

/-- Two-digit zero-padded decimal, as `%d`, `%m`, `%y` print it. -/
def pad2 (n : Nat) : String :=
  if n < 10 then "0" ++ toString n else toString n

/-- Directive `%b` then `.upper()`: three-letter uppercase month abbreviation. -/
def monthAbbr (m : Nat) : String :=
  ["JAN", "FEB", "MAR", "APR", "MAY", "JUN",
   "JUL", "AUG", "SEP", "OCT", "NOV", "DEC"].getD (m - 1) "???"

/-- Format `d.strftime("%d %b %y").upper()`. -/
def fmtDDMMMYY (d : Date) : String :=
  pad2 d.day ++ " " ++ monthAbbr d.month ++ " " ++ pad2 (d.year.emod 100).toNat

/-- Format `d.strftime("%y%m%d")`. -/
def yymmdd (d : Date) : String :=
  pad2 (d.year.emod 100).toNat ++ pad2 d.month ++ pad2 d.day

/-- Format `d.strftime("%d%b%y").upper()`. -/
def fmtDDMONYY (d : Date) : String :=
  pad2 d.day ++ monthAbbr d.month ++ pad2 (d.year.emod 100).toNat

/-! ## `calculate_dates`

`DoDLabelGenerator.calculate_dates` (dod_label_app.py, lines 138-146):
parse `DD/MM/YYYY`, default the shelf life to 24 months when the cell
is NaN, add `relativedelta(months=months)`, format `"%d %b %y"` upper.
Any exception (parse failure, or year range overflow inside the date
addition) yields `("N/A", None)`. -/

def calculate_dates (manufacture_date : String) (shelf_life_months : Option Int) :
    String × Option Date :=
  match parseDMY manufacture_date with
  | none => ("N/A", none)
  | some d =>
    let months := shelf_life_months.getD 24
    let e := addMonths d months
    if 1 ≤ e.year ∧ e.year ≤ 9999 then (fmtDDMMMYY e, some e)
    else ("N/A", none)

/-- Method `DoDLabelGeneratorPNG.calculate_dates` (dod_label_generator_png.py,
lines 155-163): same parsing and formatting, but the expiry is
`date_obj + timedelta(days = months * 30)` — a fixed 30-day-per-month
approximation. -/
def calculate_dates_png (manufacture_date : String) (shelf_life_months : Option Int) :
    String × Option Date :=
  match parseDMY manufacture_date with
  | none => ("N/A", none)
  | some d =>
    let months := shelf_life_months.getD 24
    let e := addDays d (months * 30)
    if 1 ≤ e.year ∧ e.year ≤ 9999 then (fmtDDMMMYY e, some e)
    else ("N/A", none)

/-! ## `safe_str`

`DoDLabelGenerator.safe_str` (dod_label_app.py, lines 156-164).
`value` is `none` for a missing / NaN / None cell. -/

/-- The `blank_values` list of `safe_str`, verbatim from the source. -/
def blank_values : List String :=
  ["not applicable or blank", "-/blank", "n/a", "", "-", "blank", "na", "none"]

def safe_str (value : Option String) (dflt : String) : String :=
  match value with
  | none => dflt
  | some s =>
    if lowerStr s = "nan" then dflt
    else
      let str_val := strTrim s
      if lowerStr str_val ∈ blank_values then dflt else str_val

/-- The blank-token set as the spec's sentence enumerates it
(refinement comparison for `safe_str`): only "n/a", "-", "", "none",
"blank". -/
def claimedBlankTokens : List String := ["n/a", "-", "", "none", "blank"]

/-- Function `safe_str` as the spec's sentence describes it (refinement
comparison): blank tokens from `claimedBlankTokens` and missing values
give the default, every other value gives the trimmed string
unchanged. -/
def claimedSafeStr (value : Option String) (dflt : String) : String :=
  match value with
  | none => dflt
  | some s =>
    let str_val := strTrim s
    if lowerStr str_val ∈ claimedBlankTokens then dflt else str_val

/-! ## Barcode payloads

The encoders return `Option String`: `some payload` models a
successfully rendered barcode image carrying `payload`, `none` models
the `return None` paths.  (The image rasterisation itself — pixel
dimensions, module sizes — is outside the model; `pylibdmtx`/
`python-barcode` encoding of a well-formed payload is modelled as
succeeding.) -/

/-- Method `DoDLabelGenerator.generate_code128` (dod_label_app.py, lines
166-185): truncate the stripped data to 20 characters, refuse empty
and `"-"`. -/
def generate_code128 (data : String) : Option String :=
  let data_str := strTake (strTrim data) 20
  if data_str = "" ∨ data_str = "-" then none
  else some data_str

/-- Method `DoDLabelGenerator.generate_code39` (dod_label_app.py, lines
187-208): refuse empty and `"-"`; if the stripped data is not exactly
9 digits, replace it by `data_str.zfill(9)[:9]`. -/
def generate_code39 (data : String) : Option String :=
  let data_str := strTrim data
  if data_str = "" ∨ data_str = "-" then none
  else some (if data_str.toList.all Char.isDigit ∧ data_str.toList.length = 9
             then data_str
             else strTake (zfill 9 data_str) 9)

/-- The ASCII Group Separator, `GS = chr(29)`. -/
def GSchar : Char := Char.ofNat 29

/-- The Group Separator as a one-character string. -/
def GSstr : String := String.mk [GSchar]

/-- The 13-digit AI 7001 field (`nsn_digits` in
`generate_gs1_datamatrix`): extract the digits; if not exactly 13 of
them, `nsn_digits.zfill(13)[-13:]`. -/
def nsnDigits13 (nsn : String) : String :=
  if (extractDigits nsn).toList.length = 13 then extractDigits nsn
  else takeLast (zfill 13 (extractDigits nsn)) 13

/-- The GS1 payload string `gs1_data` built by
`DoDLabelGenerator.generate_gs1_datamatrix` (dod_label_app.py, lines
210-242): `"7001" + nsn_digits + GS + "10" + batch_str + GS + "17" +
expiry_str`.  `batch_lot` is `none` for a missing / NaN cell. -/
def gs1Data (nsn : String) (batch_lot : Option String) (expiry : Option Date) :
    String :=
  let nsn_digits := nsnDigits13 nsn
  let batch_str := match batch_lot with
    | some b => if b ≠ "" then strTake b 20 else ""
    | none => ""
  let expiry_str := match expiry with
    | some d => yymmdd d
    | none => "990101"
  "7001" ++ nsn_digits ++ GSstr ++ "10" ++ batch_str ++ GSstr ++ "17" ++ expiry_str

/-- The AI 7001 field as the spec's sentence describes it (refinement
comparison): zero-padded from the left when short, truncated from the
right — i.e. keeping the leading digits — when long. -/
def claimedNsnDigits13 (nsn : String) : String :=
  if (extractDigits nsn).toList.length < 13 then zfill 13 (extractDigits nsn)
  else strTake (extractDigits nsn) 13

/-- Method `generate_gs1_datamatrix` as an encoder: the Data Matrix image is
abstracted to the payload it encodes. -/
def generate_gs1_datamatrix (nsn : String) (batch_lot : Option String)
    (expiry : Option Date) : Option String :=
  some (gs1Data nsn batch_lot expiry)

/-! ## Geometry -/

/-- Python `int(...)` on a rational value: truncation toward zero. -/
def ratTrunc (q : ℚ) : ℤ :=
  if 0 ≤ q then ⌊q⌋ else ⌈q⌉

/-- Function `mm_to_px` (dod_label_app.py, lines 56-58):
`int(mm_val * dpi / 25.4)`. -/
def mm_to_px (mm_val : ℚ) (dpi : ℚ) : ℤ :=
  ratTrunc (mm_val * dpi / 25.4)

/-- The `LABEL_SIZES` dictionary (dod_label_app.py, lines 40-49), as an
association list in source order. -/
def LABEL_SIZES : List (String × ℚ × ℚ) :=
  [("2\" √ó 1\"", 50.8, 25.4),
   ("3\" √ó 2\"", 76.2, 50.8),
   ("4\" √ó 2\"", 101.6, 50.8),
   ("4\" √ó 3\"", 101.6, 76.2),
   ("4\" √ó 4\"", 101.6, 101.6),
   ("4\" √ó 6\"", 101.6, 152.4),
   ("A6 (105 √ó 148 mm)", 105, 148),
   ("A5 (148 √ó 210 mm)", 148, 210)]

/-- Constant `BLEED_MM = 5`. -/
def BLEED_MM : ℚ := 5

/-- The size-dependent state `DoDLabelGenerator.__init__` computes
(dod_label_app.py, lines 69-88). -/
structure DoDLabelGenerator where
  dpi : ℚ
  label_width_mm : ℚ
  label_height_mm : ℚ
  total_width_mm : ℚ
  total_height_mm : ℚ
  label_width_px : ℤ
  label_height_px : ℤ
  total_width_px : ℤ
  total_height_px : ℤ
  bleed_px : ℤ
deriving DecidableEq, Repr

/-- Method `DoDLabelGenerator.__init__`: look the size key up in
`LABEL_SIZES` (falling back to the `4" √ó 6"` default), add the bleed
on both sides, convert everything to pixels. -/
def mkGenerator (label_size : String) (dpi : ℚ) : DoDLabelGenerator :=
  let wh := match LABEL_SIZES.find? (fun e => e.1 == label_size) with
    | some e => e.2
    | none => ((101.6 : ℚ), (152.4 : ℚ))
  let label_width_mm := wh.1
  let label_height_mm := wh.2
  let total_width_mm := label_width_mm + 2 * BLEED_MM
  let total_height_mm := label_height_mm + 2 * BLEED_MM
  ⟨dpi, label_width_mm, label_height_mm, total_width_mm, total_height_mm,
   mm_to_px label_width_mm dpi, mm_to_px label_height_mm dpi,
   mm_to_px total_width_mm dpi, mm_to_px total_height_mm dpi,
   mm_to_px BLEED_MM dpi⟩

/-- The pixel dimensions of the canvas `create_label_png` allocates:
`Image.new('RGB', (self.total_width_px, self.total_height_px),
'white')` (dod_label_app.py, line 247). -/
def canvasSize (g : DoDLabelGenerator) : ℤ × ℤ :=
  (g.total_width_px, g.total_height_px)

/-! ## `create_label_png` rendering skeleton

The drawing calls of `DoDLabelGenerator.create_label_png`
(dod_label_app.py, lines 244-448) in source order, with the geometry
(pixel positions, resizing) elided: what matters for the claims is
which elements are emitted, with which payloads, and in which order.
A `paste` op models an `img.paste(...)` of a barcode image, a `text`
op models a `draw.text(...)` of a label/value pair. -/

inductive RenderOp where
  | paste (slot : String) (payload : String)
  | text (label : String) (value : String)
deriving DecidableEq, Repr

/-- The NIIN derived in `create_label_png` (dod_label_app.py, lines
310-312): `''.join(filter(str.isdigit, nato_stock))[-9:] if nato_stock
!= '-' else '000000000'`. -/
def niinOf (nato_stock : String) : String :=
  if nato_stock ≠ "-" then takeLast (extractDigits nato_stock) 9
  else "000000000"

/-- The `if barcode_image: img.paste(...)` pattern: a render op only
when the encoder produced an image. -/
def slotOps (slot : String) (enc : Option String) : List RenderOp :=
  match enc with
  | some p => [RenderOp.paste slot p]
  | none => []

/-- One spreadsheet row; `none` is a missing / NaN cell
(`row.get(key, default)` then supplies the default). -/
structure Row where
  product_description : Option String
  nato_stock_no : Option String
  batch_lot_no : Option String
  batch_lot_managed : Option String
  date_of_manufacture : Option String
  shelf_life_months : Option Int
  unit_of_issue : Option String
  hazardous_material_code : Option String
deriving Repr

def create_label_ops (row : Row) : List RenderOp :=
  let ud := calculate_dates (row.date_of_manufacture.getD "01/01/2025")
    row.shelf_life_months
  let use_by_date := ud.1
  let expiry_date_obj := ud.2
  let product_desc := safe_str row.product_description "N/A"
  let nato_stock_hdr := safe_str row.nato_stock_no "N/A"
  let nato_stock := safe_str row.nato_stock_no "-"
  let niin := niinOf nato_stock
  let unit_issue := safe_str row.unit_of_issue "DR"
  let hazmat_code := safe_str row.hazardous_material_code "-"
  let niin_barcode := generate_code39 niin
  let datamatrix := generate_gs1_datamatrix nato_stock row.batch_lot_no
    expiry_date_obj
  let batch_lot := safe_str row.batch_lot_no ""
  let batch_barcode := generate_code128 batch_lot
  let use_by_barcode_text := match expiry_date_obj with
    | some d => fmtDDMONYY d
    | none => "01JAN99"
  let use_by_barcode := generate_code128 use_by_barcode_text
  let batch_managed_raw := safe_str row.batch_lot_managed "N"
  let batch_managed := if upperStr batch_managed_raw ∈ ["Y", "YES"] then "Y"
                       else "N"
  [RenderOp.text "header" product_desc, RenderOp.text "nsn" nato_stock_hdr]
  ++ slotOps "niin" niin_barcode
  ++ [RenderOp.text "Unit: " unit_issue]
  ++ (if hazmat_code ≠ "" ∧ hazmat_code ≠ "-" then
        [RenderOp.text "HAZARD" hazmat_code]
      else [])
  ++ slotOps "datamatrix" datamatrix
  ++ [RenderOp.text "NIIN: " niin]
  ++ slotOps "batch" batch_barcode
  ++ slotOps "useby" use_by_barcode
  ++ [RenderOp.text "B/L: " batch_managed,
      RenderOp.text "Use by Date: " use_by_date]

/-- The `"B/L:"` value rendered by `create_label_png`
(dod_label_app.py, lines 434-439). -/
def batch_managed_of (cell : Option String) : String :=
  let batch_managed_raw := safe_str cell "N"
  if upperStr batch_managed_raw ∈ ["Y", "YES"] then "Y" else "N"

/-! ## Helper lemmas -/

lemma toList_mk (l : List Char) : (String.mk l).toList = l := rfl

lemma mk_toList (s : String) : String.mk s.toList = s := rfl

lemma toList_append (s t : String) : (s ++ t).toList = s.toList ++ t.toList := by
  cases s; cases t; rfl

lemma zfill_length (w : Nat) (s : String) :
    (zfill w s).toList.length = max w s.toList.length := by
  simp only [zfill, toList_mk, List.length_append, List.length_replicate]
  omega

lemma takeLast_length (s : String) (n : Nat) :
    (takeLast s n).toList.length = min n s.toList.length := by
  simp only [takeLast, toList_mk, List.length_drop]
  omega

lemma zfill_of_ge (w : Nat) (s : String) (h : w ≤ s.toList.length) :
    zfill w s = s := by
  have hz : w - s.toList.length = 0 := by omega
  simp only [zfill, hz, List.replicate_zero, List.nil_append, mk_toList]

lemma takeLast_of_le (s : String) (n : Nat) (h : s.toList.length ≤ n) :
    takeLast s n = s := by
  have hz : s.toList.length - n = 0 := by omega
  simp only [takeLast, hz, List.drop_zero, mk_toList]

lemma mem_takeLast {s : String} {n : Nat} {c : Char}
    (h : c ∈ (takeLast s n).toList) : c ∈ s.toList := by
  simp only [takeLast, toList_mk] at h
  exact List.mem_of_mem_drop h

lemma mem_zfill {w : Nat} {s : String} {c : Char}
    (h : c ∈ (zfill w s).toList) : c = '0' ∨ c ∈ s.toList := by
  simp only [zfill, toList_mk, List.mem_append] at h
  rcases h with h | h
  · exact Or.inl (List.eq_of_mem_replicate h)
  · exact Or.inr h

lemma extractDigits_digits (s : String) :
    ∀ c ∈ (extractDigits s).toList, c.isDigit := by
  intro c hc
  simp only [extractDigits, toList_mk, List.mem_filter] at hc
  exact hc.2

lemma nsnDigits13_length (nsn : String) :
    (nsnDigits13 nsn).toList.length = 13 := by
  unfold nsnDigits13
  by_cases h : (extractDigits nsn).toList.length = 13
  · rw [if_pos h]
    exact h
  · rw [if_neg h, takeLast_length, zfill_length]
    omega

lemma nsnDigits13_digits (nsn : String) :
    ∀ c ∈ (nsnDigits13 nsn).toList, c.isDigit := by
  intro c hc
  unfold nsnDigits13 at hc
  by_cases h : (extractDigits nsn).toList.length = 13
  · rw [if_pos h] at hc
    exact extractDigits_digits nsn c hc
  · rw [if_neg h] at hc
    rcases mem_zfill (mem_takeLast hc) with rfl | h'
    · decide
    · exact extractDigits_digits nsn c h'

lemma isDigit_not_whitespace {c : Char} (h : c.isDigit) :
    c.isWhitespace = false := by
  by_contra hw
  rw [Bool.not_eq_false] at hw
  have hc : c = ' ' ∨ c = '\t' ∨ c = '\r' ∨ c = '\n' := by
    unfold Char.isWhitespace at hw
    simp only [Bool.or_eq_true, decide_eq_true_eq] at hw
    tauto
  rcases hc with rfl | rfl | rfl | rfl <;> exact absurd h (by decide)

lemma dropWhile_of_head_false {p : Char → Bool} :
    ∀ {l : List Char}, (∀ c ∈ l, p c = false) → l.dropWhile p = l
  | [], _ => rfl
  | x :: xs, h => by
    have hx : p x = false := h x (List.mem_cons_self x xs)
    rw [List.dropWhile_cons_of_neg (by simp [hx])]

lemma strTrim_of_digits (s : String) (h : ∀ c ∈ s.toList, c.isDigit) :
    strTrim s = s := by
  unfold strTrim
  have h1 : ∀ c ∈ s.toList, c.isWhitespace = false := fun c hc =>
    isDigit_not_whitespace (h c hc)
  rw [dropWhile_of_head_false h1]
  rw [dropWhile_of_head_false (by intro c hc; exact h1 c (List.mem_reverse.mp hc))]
  rw [List.reverse_reverse, mk_toList]

lemma eq_empty_of_toList_nil {s : String} (h : s.toList = []) : s = "" := by
  cases s with
  | mk l =>
    rw [toList_mk] at h
    rw [h]

lemma pad2_spec : ∀ n < 100,
    (pad2 n).toList.length = 2 ∧ ∀ c ∈ (pad2 n).toList, c.isDigit := by
  decide

lemma year2_lt (y : Int) : (y.emod 100).toNat < 100 := by
  have h1 : 0 ≤ y.emod 100 := Int.emod_nonneg y (by norm_num)
  have h2 : y.emod 100 < 100 := Int.emod_lt_of_pos y (by norm_num)
  omega

lemma yymmdd_length (d : Date) (hm : d.month < 100) (hd : d.day < 100) :
    (yymmdd d).toList.length = 6 := by
  unfold yymmdd
  rw [toList_append, toList_append, List.length_append, List.length_append,
    (pad2_spec _ (year2_lt d.year)).1, (pad2_spec _ hm).1, (pad2_spec _ hd).1]

lemma yymmdd_digits (d : Date) (hm : d.month < 100) (hd : d.day < 100) :
    ∀ c ∈ (yymmdd d).toList, c.isDigit := by
  intro c hc
  unfold yymmdd at hc
  rw [toList_append, toList_append] at hc
  rcases List.mem_append.mp hc with h1 | h1
  · rcases List.mem_append.mp h1 with h2 | h2
    · exact (pad2_spec _ (year2_lt d.year)).2 c h2
    · exact (pad2_spec _ hm).2 c h2
  · exact (pad2_spec _ hd).2 c h1

lemma takeLast_append (s t : String) (n : Nat) (h : t.toList.length = n) :
    takeLast (s ++ t) n = t := by
  unfold takeLast
  rw [toList_append]
  have hl : (s.toList ++ t.toList).length - n = s.toList.length := by
    rw [List.length_append]
    omega
  rw [hl, List.drop_left]
  exact mk_toList t

lemma zfill_digits {w : Nat} {s : String} (h : ∀ c ∈ s.toList, c.isDigit) :
    ∀ c ∈ (zfill w s).toList, c.isDigit := by
  intro c hc
  rcases mem_zfill hc with rfl | hc'
  · decide
  · exact h c hc'

/-- A stripped, nonempty, at-most-9-character all-digit payload passes
`generate_code39`'s guards and is zero-padded to exactly 9 digits. -/
lemma generate_code39_digits (t : String) (hne : t.toList ≠ [])
    (hlen : t.toList.length ≤ 9) (hdig : ∀ c ∈ t.toList, c.isDigit) :
    generate_code39 t = some (zfill 9 t) := by
  have htrim : strTrim t = t := strTrim_of_digits t hdig
  have hne' : t ≠ "" := by
    intro he
    rw [he] at hne
    exact hne rfl
  have hnd : t ≠ "-" := by
    intro he
    have h' := hdig '-' (by rw [he]; decide)
    exact absurd h' (by decide)
  show (if strTrim t = "" ∨ strTrim t = "-" then none
        else some (if (strTrim t).toList.all Char.isDigit ∧
                      (strTrim t).toList.length = 9
                   then strTrim t
                   else strTake (zfill 9 (strTrim t)) 9)) = some (zfill 9 t)
  rw [htrim, if_neg (by simp [hne', hnd])]
  by_cases h9 : t.toList.length = 9
  · rw [if_pos ⟨List.all_eq_true.mpr hdig, h9⟩, zfill_of_ge 9 t (by omega)]
  · rw [if_neg (by intro hcon; exact h9 hcon.2)]
    have hz : (zfill 9 t).toList.length = 9 := by
      rw [zfill_length]
      omega
    unfold strTake
    rw [List.take_of_length_le (by omega), mk_toList]

lemma mem_slotOps {o : RenderOp} {s : String} {e : Option String} :
    o ∈ slotOps s e ↔ ∃ p, e = some p ∧ o = RenderOp.paste s p := by
  cases e with
  | none => simp [slotOps]
  | some q => simp [slotOps]

/-! ## Claim theorems -/

/-- C1. Date arithmetic: `DoDLabelGenerator.calculate_dates` in
`dod_label_app.py` adds exact calendar months (clamping 31 Jan + 1
month to the end of February) and reproduces all three dates the claim
names; but `DoDLabelGeneratorPNG.calculate_dates` in
`dod_label_generator_png.py` — also named by the claim — adds
`months * 30` days, yielding 2 Mar 2025, 30 Oct 2028 and 6 May 2026 on
the same inputs instead of the claimed 28 Feb 2025, 15 Nov 2028 and
12 May 2026. -/
theorem claim_C1_calendar_month_arithmetic :
    calculate_dates "31/01/2025" (some 1) = ("28 FEB 25", some ⟨2025, 2, 28⟩) ∧
    calculate_dates "15/11/2025" (some 36) = ("15 NOV 28", some ⟨2028, 11, 15⟩) ∧
    calculate_dates "12/11/2024" (some 18) = ("12 MAY 26", some ⟨2026, 5, 12⟩) ∧
    calculate_dates_png "31/01/2025" (some 1) = ("02 MAR 25", some ⟨2025, 3, 2⟩) ∧
    calculate_dates_png "15/11/2025" (some 36) =
      ("30 OCT 28", some ⟨2028, 10, 30⟩) ∧
    calculate_dates_png "12/11/2024" (some 18) =
      ("06 MAY 26", some ⟨2026, 5, 6⟩) := by
  exact ⟨by decide, by decide, by decide, by decide, by decide, by decide⟩

/-- C3 counterexample. On an NSN with 14 extractable digits the
code keeps the rightmost 13 (`zfill(13)[-13:]`), whereas truncating
from the right — as the claim states — would keep the leftmost 13. -/
theorem claim_C3_counterexample :
    nsnDigits13 "12345678901234" = "2345678901234" ∧
    claimedNsnDigits13 "12345678901234" = "1234567890123" ∧
    nsnDigits13 "12345678901234" ≠ claimedNsnDigits13 "12345678901234" := by
  exact ⟨by decide, by decide, by decide⟩

/-- C3 amended. The AI 7001 digit string is always exactly 13
digits: zero-padded from the left when fewer than 13 digits are
present, and truncated from the *left* (keeping the rightmost 13)
when more are present. -/
theorem claim_C3_nsn_digits (nsn : String) :
    (nsnDigits13 nsn).toList.length = 13 ∧
    (∀ c ∈ (nsnDigits13 nsn).toList, c.isDigit) ∧
    ((extractDigits nsn).toList.length < 13 →
      nsnDigits13 nsn = zfill 13 (extractDigits nsn)) ∧
    (13 ≤ (extractDigits nsn).toList.length →
      nsnDigits13 nsn = takeLast (extractDigits nsn) 13) := by
  refine ⟨nsnDigits13_length nsn, nsnDigits13_digits nsn, ?_, ?_⟩
  · intro h
    unfold nsnDigits13
    have hne : ¬ (extractDigits nsn).toList.length = 13 := by omega
    simp only [hne, if_false]
    apply takeLast_of_le
    rw [zfill_length]
    omega
  · intro h
    unfold nsnDigits13
    by_cases h13 : (extractDigits nsn).toList.length = 13
    · rw [if_pos h13, takeLast_of_le _ _ (by omega)]
    · rw [if_neg h13, zfill_of_ge _ _ (by omega)]

/-- C6 counterexample. `"na"` is not among the five blank tokens the
claim enumerates, so by the claim `safe_str` would return it
unchanged; the code's `blank_values` list contains `"na"` and the
default is returned instead. -/
theorem claim_C6_counterexample :
    lowerStr (strTrim "na") ∉ claimedBlankTokens ∧
    claimedSafeStr (some "na") "-" = "na" ∧
    safe_str (some "na") "-" = "-" := by
  exact ⟨by decide, by decide, by decide⟩

/-- C6 amended. The blank-token set is the code's eight-element
`blank_values` list (which also holds `"na"`, a slash-joined blank
marker and `"not applicable or blank"`), compared case-insensitively
after trimming, plus the literal string `"nan"` (untrimmed,
lowercased) and missing/NaN cells; all of them return the supplied
default, and every other value returns the trimmed string
unchanged. -/
theorem claim_C6_blank_normalization (d : String) :
    (∀ t ∈ blank_values, safe_str (some t) d = d) ∧
    safe_str none d = d ∧
    safe_str (some "NaN") d = d ∧
    (∀ s, lowerStr s ≠ "nan" → lowerStr (strTrim s) ∉ blank_values →
      safe_str (some s) d = strTrim s) := by
  refine ⟨?_, rfl, rfl, ?_⟩
  · intro t ht
    simp only [blank_values, List.mem_cons, List.not_mem_nil, or_false] at ht
    rcases ht with rfl | rfl | rfl | rfl | rfl | rfl | rfl | rfl <;> rfl
  · intro s h1 h2
    show (if lowerStr s = "nan" then d
          else if lowerStr (strTrim s) ∈ blank_values then d else strTrim s) =
      strTrim s
    rw [if_neg h1, if_neg h2]

/-- C7. `mm_to_px` is `int(mm_val * dpi / 25.4)`; on the
nonnegative inputs of its callers this is the floor of the exact
rational value, and for a fixed nonnegative dpi it is monotone in the
millimetre value. (Determinism is immediate: it is a pure function of
its arguments.) -/
theorem claim_C7_mm_to_px (x y dpi : ℚ) (hx : 0 ≤ x) (hdpi : 0 ≤ dpi)
    (hxy : x ≤ y) :
    mm_to_px x dpi = ⌊x * dpi / 25.4⌋ ∧ mm_to_px x dpi ≤ mm_to_px y dpi := by
  constructor
  · unfold mm_to_px ratTrunc
    rw [if_pos (by positivity)]
  · unfold mm_to_px ratTrunc
    have hq : x * dpi / 25.4 ≤ y * dpi / 25.4 := by
      gcongr
    have h0 : (0 : ℚ) ≤ x * dpi / 25.4 := by positivity
    rw [if_pos h0, if_pos (le_trans h0 hq)]
    exact Int.floor_le_floor hq

/-- Witness for C7 at `x = 2`, `y = 3`, `dpi = 600`. -/
theorem claim_C7_mm_to_px_witness :
    mm_to_px 2 600 = ⌊(2 * 600 / 25.4 : ℚ)⌋ ∧ mm_to_px 2 600 ≤ mm_to_px 3 600 :=
  claim_C7_mm_to_px 2 3 600 (by norm_num) (by norm_num) (by norm_num)

/-- C10. The rendered `"B/L:"` value is `"Y"` exactly when the
`safe_str`-normalized cell uppercases to `"Y"` or `"YES"`, and `"N"`
for everything else — a missing cell, `"No"`, blank tokens and
arbitrary strings included; the `"B/L:"` text op always appears in the
rendered label. -/
theorem claim_C10_batch_lot_managed (cell : Option String) (row : Row) :
    (batch_managed_of cell = "Y" ↔
      upperStr (safe_str cell "N") = "Y" ∨ upperStr (safe_str cell "N") = "YES") ∧
    (batch_managed_of cell = "Y" ∨ batch_managed_of cell = "N") ∧
    RenderOp.text "B/L: " (batch_managed_of row.batch_lot_managed)
      ∈ create_label_ops row ∧
    batch_managed_of none = "N" ∧
    batch_managed_of (some "No") = "N" ∧
    batch_managed_of (some "n/a") = "N" ∧
    batch_managed_of (some "blank") = "N" ∧
    batch_managed_of (some "arbitrary words") = "N" ∧
    batch_managed_of (some "yes") = "Y" ∧
    batch_managed_of (some "Y") = "Y" ∧
    batch_managed_of (some "y") = "Y" := by
  refine ⟨?_, ?_, ?_, by decide, by decide, by decide, by decide, by decide,
    by decide, by decide, by decide⟩
  · unfold batch_managed_of
    by_cases h : upperStr (safe_str cell "N") ∈ (["Y", "YES"] : List String)
    · simp only [List.mem_cons, List.not_mem_nil, or_false] at h
      simp [h]
    · have h' := h
      simp only [List.mem_cons, List.not_mem_nil, or_false] at h'
      simp [h, h']
  · unfold batch_managed_of
    by_cases h : upperStr (safe_str cell "N") ∈ (["Y", "YES"] : List String) <;>
      simp [h]
  · unfold create_label_ops batch_managed_of
    simp [List.mem_append]

/-- Witness for C10 at a concrete cell and row. -/
theorem claim_C10_batch_lot_managed_witness :
    (batch_managed_of (some "Yes") = "Y" ↔
      upperStr (safe_str (some "Yes") "N") = "Y" ∨
        upperStr (safe_str (some "Yes") "N") = "YES") ∧
    (batch_managed_of (some "Yes") = "Y" ∨
      batch_managed_of (some "Yes") = "N") ∧
    RenderOp.text "B/L: " (batch_managed_of none) ∈
      create_label_ops ⟨none, none, none, none, none, none, none, none⟩ ∧
    batch_managed_of none = "N" ∧
    batch_managed_of (some "No") = "N" ∧
    batch_managed_of (some "n/a") = "N" ∧
    batch_managed_of (some "blank") = "N" ∧
    batch_managed_of (some "arbitrary words") = "N" ∧
    batch_managed_of (some "yes") = "Y" ∧
    batch_managed_of (some "Y") = "Y" ∧
    batch_managed_of (some "y") = "Y" :=
  claim_C10_batch_lot_managed (some "Yes")
    ⟨none, none, none, none, none, none, none, none⟩

/-- C2. For every NSN, batch lot and non-null expiry, the GS1
payload is exactly `"7001"`, the 13-digit NSN field, a Group
Separator, `"10"`, the batch truncated to at most 20 characters,
another Group Separator, and `"17"` with the 6-digit `YYMMDD` expiry;
the payload does not end in a Group Separator. -/
theorem claim_C2_gs1_payload (nsn b : String) (d : Date)
    (hm : d.month < 100) (hd : d.day < 100) :
    gs1Data nsn (some b) (some d) =
      "7001" ++ nsnDigits13 nsn ++ GSstr ++ "10" ++ strTake b 20 ++ GSstr ++
        "17" ++ yymmdd d ∧
    (nsnDigits13 nsn).toList.length = 13 ∧
    (∀ c ∈ (nsnDigits13 nsn).toList, c.isDigit) ∧
    (strTake b 20).toList.length ≤ 20 ∧
    (yymmdd d).toList.length = 6 ∧
    (∀ c ∈ (yymmdd d).toList, c.isDigit) ∧
    (gs1Data nsn (some b) (some d)).toList.getLast? ≠ some GSchar := by
  have hbatch : (if b ≠ "" then strTake b 20 else "") = strTake b 20 := by
    by_cases hb : b = ""
    · subst hb
      decide
    · rw [if_pos hb]
  have heq : gs1Data nsn (some b) (some d) =
      "7001" ++ nsnDigits13 nsn ++ GSstr ++ "10" ++ strTake b 20 ++ GSstr ++
        "17" ++ yymmdd d := by
    show "7001" ++ nsnDigits13 nsn ++ GSstr ++ "10" ++
        (if b ≠ "" then strTake b 20 else "") ++ GSstr ++ "17" ++ yymmdd d =
      "7001" ++ nsnDigits13 nsn ++ GSstr ++ "10" ++ strTake b 20 ++ GSstr ++
        "17" ++ yymmdd d
    rw [hbatch]
  have hy6 : (yymmdd d).toList.length = 6 := yymmdd_length d hm hd
  have hylast : (gs1Data nsn (some b) (some d)).toList.getLast? =
      (yymmdd d).toList.getLast? := by
    rw [heq, toList_append]
    exact List.getLast?_append_of_ne_nil _ (by
      intro hnil
      rw [hnil] at hy6
      simp at hy6)
  refine ⟨heq, nsnDigits13_length nsn, nsnDigits13_digits nsn, ?_, hy6,
    yymmdd_digits d hm hd, ?_⟩
  · unfold strTake
    rw [toList_mk, List.length_take]
    omega
  · rw [hylast]
    cases hgl : (yymmdd d).toList.getLast? with
    | none => simp
    | some c =>
      have hcmem := List.mem_of_getLast?_eq_some hgl
      have hcdig := yymmdd_digits d hm hd c hcmem
      intro hEq
      injection hEq with h'
      subst h'
      exact absurd hcdig (by decide)

/-- Witness for C2 at a concrete NSN, batch and expiry date. -/
theorem claim_C2_gs1_payload_witness :
    gs1Data "6850-66-123-4567" (some "LOT42") (some ⟨2026, 5, 12⟩) =
      "7001" ++ nsnDigits13 "6850-66-123-4567" ++ GSstr ++ "10" ++
        strTake "LOT42" 20 ++ GSstr ++ "17" ++ yymmdd ⟨2026, 5, 12⟩ ∧
    (nsnDigits13 "6850-66-123-4567").toList.length = 13 ∧
    (∀ c ∈ (nsnDigits13 "6850-66-123-4567").toList, c.isDigit) ∧
    (strTake "LOT42" 20).toList.length ≤ 20 ∧
    (yymmdd ⟨2026, 5, 12⟩).toList.length = 6 ∧
    (∀ c ∈ (yymmdd ⟨2026, 5, 12⟩).toList, c.isDigit) ∧
    (gs1Data "6850-66-123-4567" (some "LOT42")
        (some ⟨2026, 5, 12⟩)).toList.getLast? ≠ some GSchar :=
  claim_C2_gs1_payload "6850-66-123-4567" "LOT42" ⟨2026, 5, 12⟩
    (by decide) (by decide)

/-- C4. Whenever at least one digit can be extracted from the NSN,
the NIIN barcode payload is exactly 9 characters: the last 9 extracted
digits, left-padded with zeros when fewer than 9 digits exist; with 13
extractable digits it is exactly those digits' last 9. -/
theorem claim_C4_niin_derivation (nsn : String)
    (h : extractDigits nsn ≠ "") :
    generate_code39 (niinOf nsn) =
      some (zfill 9 (takeLast (extractDigits nsn) 9)) ∧
    (zfill 9 (takeLast (extractDigits nsn) 9)).toList.length = 9 ∧
    (∀ c ∈ (zfill 9 (takeLast (extractDigits nsn) 9)).toList, c.isDigit) ∧
    ((extractDigits nsn).toList.length = 13 →
      generate_code39 (niinOf nsn) = some (takeLast (extractDigits nsn) 9)) := by
  have hnil : (extractDigits nsn).toList ≠ [] := fun he =>
    h (eq_empty_of_toList_nil he)
  have hdigt : ∀ c ∈ (takeLast (extractDigits nsn) 9).toList, c.isDigit :=
    fun c hc => extractDigits_digits nsn c (mem_takeLast hc)
  have hlent : (takeLast (extractDigits nsn) 9).toList.length ≤ 9 := by
    rw [takeLast_length]
    omega
  have hpos : 0 < (extractDigits nsn).toList.length := List.length_pos.mpr hnil
  have hnet : (takeLast (extractDigits nsn) 9).toList ≠ [] := by
    apply List.length_pos.mp
    rw [takeLast_length]
    omega
  have hnsn : nsn ≠ "-" := by
    intro he
    rw [he] at h
    exact h (by decide)
  have hni : niinOf nsn = takeLast (extractDigits nsn) 9 := by
    unfold niinOf
    rw [if_pos hnsn]
  have hmain := generate_code39_digits _ hnet hlent hdigt
  refine ⟨by rw [hni]; exact hmain, ?_, zfill_digits hdigt, ?_⟩
  · rw [zfill_length, takeLast_length]
    omega
  · intro h13
    rw [hni, hmain, zfill_of_ge 9 _ (by rw [takeLast_length]; omega)]

/-- Witness for C4 at a 13-digit NSN. -/
theorem claim_C4_niin_derivation_witness :
    generate_code39 (niinOf "6850-66-123-4567") =
      some (zfill 9 (takeLast (extractDigits "6850-66-123-4567") 9)) ∧
    (zfill 9 (takeLast (extractDigits "6850-66-123-4567") 9)).toList.length
      = 9 ∧
    (∀ c ∈ (zfill 9 (takeLast (extractDigits "6850-66-123-4567") 9)).toList,
      c.isDigit) ∧
    ((extractDigits "6850-66-123-4567").toList.length = 13 →
      generate_code39 (niinOf "6850-66-123-4567") =
        some (takeLast (extractDigits "6850-66-123-4567") 9)) :=
  claim_C4_niin_derivation "6850-66-123-4567" (by decide)

/-- C5. A manufacture date that fails to parse as `DD/MM/YYYY`
yields the sentinel display `"N/A"` with a null expiry object, and a
null expiry object makes the GS1 payload end in the sentinel AI 17
field `17990101`. -/
theorem claim_C5_parse_failure_sentinels (s : String) (m : Option Int)
    (nsn : String) (batch : Option String) :
    (parseDMY s = none → calculate_dates s m = ("N/A", none)) ∧
    takeLast (gs1Data nsn batch none) 8 = "17990101" := by
  constructor
  · intro hp
    unfold calculate_dates
    rw [hp]
  · have hassoc : ∀ x : String, (x ++ "17") ++ "990101" = x ++ "17990101" := by
      intro x
      cases x
      exact congrArg String.mk ((List.append_assoc _ _ _).trans rfl)
    show takeLast ("7001" ++ nsnDigits13 nsn ++ GSstr ++ "10" ++
        (match batch with
         | some b => if b ≠ "" then strTake b 20 else ""
         | none => "") ++ GSstr ++ "17" ++ "990101") 8 = "17990101"
    rw [hassoc]
    exact takeLast_append _ _ 8 (by decide)

/-- Witness for C5 at an unparseable date and a null expiry. -/
theorem claim_C5_parse_failure_sentinels_witness :
    calculate_dates "not-a-date" (some 24) = ("N/A", none) ∧
    takeLast (gs1Data "6850-66-123-4567" none none) 8 = "17990101" := by
  obtain ⟨h1, h2⟩ := claim_C5_parse_failure_sentinels "not-a-date" (some 24)
    "6850-66-123-4567" none
  exact ⟨h1 (by decide), h2⟩

/-- C8. For every entry of the `LABEL_SIZES` enumeration, the
canvas allocated by `create_label_png` is the label size plus two
bleed margins on each axis, converted to pixels at the configured
DPI. -/
theorem claim_C8_canvas_dimensions (name : String) (w h dpi : ℚ)
    (hmem : (name, w, h) ∈ LABEL_SIZES) :
    (mkGenerator name dpi).total_width_px = mm_to_px (w + 2 * BLEED_MM) dpi ∧
    (mkGenerator name dpi).total_height_px = mm_to_px (h + 2 * BLEED_MM) dpi ∧
    canvasSize (mkGenerator name dpi) =
      (mm_to_px (w + 2 * BLEED_MM) dpi, mm_to_px (h + 2 * BLEED_MM) dpi) := by
  simp only [LABEL_SIZES, List.mem_cons, List.not_mem_nil, or_false,
    Prod.mk.injEq] at hmem
  obtain h | h | h | h | h | h | h | h := hmem <;>
    · obtain ⟨rfl, rfl, rfl⟩ := h
      exact ⟨rfl, rfl, rfl⟩

/-- Witness for C8 at the `2" × 1"` label size and 600 DPI. -/
theorem claim_C8_canvas_dimensions_witness :
    (mkGenerator "2\" √ó 1\"" 600).total_width_px =
      mm_to_px (50.8 + 2 * BLEED_MM) 600 ∧
    (mkGenerator "2\" √ó 1\"" 600).total_height_px =
      mm_to_px (25.4 + 2 * BLEED_MM) 600 ∧
    canvasSize (mkGenerator "2\" √ó 1\"" 600) =
      (mm_to_px (50.8 + 2 * BLEED_MM) 600, mm_to_px (25.4 + 2 * BLEED_MM) 600) :=
  claim_C8_canvas_dimensions "2\" √ó 1\"" 50.8 25.4 600
    (List.mem_cons_self _ _)

/-- C9. `generate_code128` returns `none` on an empty or `"-"`
trimmed input; and when the batch barcode encoder returns `none`,
`create_label_png` pastes nothing in the batch slot while the rest of
the label — the `"B/L:"` and `"Use by Date:"` elements that follow the
barcode row included — is still rendered. -/
theorem claim_C9_null_barcode_slots (data : String) (row : Row)
    (hnone : generate_code128 (safe_str row.batch_lot_no "") = none) :
    (strTrim data = "" ∨ strTrim data = "-" → generate_code128 data = none) ∧
    (∀ p, RenderOp.paste "batch" p ∉ create_label_ops row) ∧
    RenderOp.text "B/L: " (batch_managed_of row.batch_lot_managed)
      ∈ create_label_ops row ∧
    RenderOp.text "Use by Date: "
        (calculate_dates (row.date_of_manufacture.getD "01/01/2025")
          row.shelf_life_months).1
      ∈ create_label_ops row := by
  refine ⟨?_, ?_, ?_, ?_⟩
  · rintro (h | h) <;>
      simp only [generate_code128, h] <;> decide
  · intro p
    simp [create_label_ops, hnone, mem_slotOps]
  · simp [create_label_ops, batch_managed_of, mem_slotOps]
  · simp [create_label_ops, mem_slotOps]

/-- Witness for C9 at a row whose batch cell is the placeholder
`"-"`. -/
theorem claim_C9_null_barcode_slots_witness :
    (strTrim "" = "" ∨ strTrim "" = "-" → generate_code128 "" = none) ∧
    RenderOp.paste "batch" "X" ∉
      create_label_ops ⟨none, none, some "-", none, none, none, none, none⟩ ∧
    RenderOp.text "B/L: " (batch_managed_of none) ∈
      create_label_ops ⟨none, none, some "-", none, none, none, none, none⟩ ∧
    RenderOp.text "Use by Date: " (calculate_dates "01/01/2025" none).1 ∈
      create_label_ops ⟨none, none, some "-", none, none, none, none, none⟩ := by
  obtain ⟨h1, h2, h3, h4⟩ := claim_C9_null_barcode_slots ""
    ⟨none, none, some "-", none, none, none, none, none⟩ (by decide)
  exact ⟨h1, h2 "X", h3, h4⟩

/-- Witness for the amended C3 at a 13-digit, a short and a 14-digit
NSN. -/
theorem claim_C3_nsn_digits_witness :
    (nsnDigits13 "6850-66-123-4567").toList.length = 13 ∧
    nsnDigits13 "99-123" = zfill 13 (extractDigits "99-123") ∧
    nsnDigits13 "12345678901234" =
      takeLast (extractDigits "12345678901234") 13 :=
  ⟨(claim_C3_nsn_digits "6850-66-123-4567").1,
   (claim_C3_nsn_digits "99-123").2.2.1 (by decide),
   (claim_C3_nsn_digits "12345678901234").2.2.2 (by decide)⟩

/-- Witness for the amended C6 at a blank token, a missing cell and an
ordinary value. -/
theorem claim_C6_blank_normalization_witness :
    safe_str (some "n/a") "-" = "-" ∧ safe_str none "-" = "-" ∧
    safe_str (some " Hydraulic Fluid ") "-" = strTrim " Hydraulic Fluid " := by
  obtain ⟨h1, h2, _, h4⟩ := claim_C6_blank_normalization "-"
  exact ⟨h1 "n/a" (by decide), h2,
    h4 " Hydraulic Fluid " (by decide) (by decide)⟩

end DrumLabel
